import Mathlib

/-!
Verification of the Better-Port connection-lifecycle manager.

The development shallowly embeds the de-duplicated, most capable variant of
the library: the generic lifecycle manager (class BaseBetterPort,
src/lib/UDP.ts) together with its three transport adapters, UDP and Serial
(src/lib/UDP.ts) and TCP (src/lib/index.ts).  Stateful code is embedded as
explicit state-passing functions; the asynchronous callback wiring is
embedded as a labelled transition system over timestamped event traces.
External OS resources (the dgram socket, the serial device, the TCP socket)
are represented by the boolean liveness flags the adapters themselves keep
(port handle present, connected, isOpen, writable); outcomes of external
calls that the code merely forwards (device enumeration, stream
backpressure, adapter open resolution) appear as explicit state fields or
event parameters.
-/

set_option maxRecDepth 4000

namespace BetterPort

/-- Result of an adapter `write` call: either a synchronous return
(`retVal` is the boolean returned to the caller, `syncErr` the error the
write callback was synchronously invoked with, if any, `sends` the
datagram deliveries performed), or a thrown exception. -/
inductive WriteOut where
  | ret (retVal : Bool) (syncErr : Option String) (sends : List (String × Nat))
  | exn (msg : String)
  deriving DecidableEq

/-- `dgram.RemoteInfo`: source address and port of an inbound datagram. -/
structure RemoteInfo where
  address : String
  port : Nat
  deriving DecidableEq

/-- One entry of the UDP client registry: `{ ip: string, port: number | undefined }`. -/
structure ClientEntry where
  ip : String
  port : Option Nat
  deriving DecidableEq

/-- The `ip` option of the UDP adapter: `string | string[] | undefined`. -/
inductive IpOption where
  | noIp
  | single (ip : String)
  | multi (ips : List String)
  deriving DecidableEq

/-- The UDP adapter options used by the embedded operations. -/
structure UDPOptions where
  ip : IpOption
  sendPort : Option Nat
  recPort : Option Nat
  deriving DecidableEq

/-- Mutable state of the UDP adapter (class UDP, src/lib/UDP.ts):
`port` (handle presence), `connected`, and the client registry. -/
structure UDPState where
  options : UDPOptions
  hasPort : Bool
  connected : Bool
  clients : List ClientEntry
  deriving DecidableEq

namespace UDP

/-- Initial client registry built by the UDP constructor from `options.ip`. -/
def initClients (o : UDPOptions) : List ClientEntry :=
  match o.ip with
  | .noIp => []
  | .single ip => [⟨ip, o.sendPort⟩]
  | .multi ips => ips.map fun ip => ⟨ip, o.sendPort⟩

/-- A freshly constructed UDP adapter. -/
def mk (o : UDPOptions) : UDPState :=
  ⟨o, false, false, initClients o⟩

/-- `get isOpen()`: `this.port != undefined && this.connected`. -/
def isOpen (s : UDPState) : Bool := s.hasPort && s.connected

/-- The client-matching loop of the `message` listener: scan the registry
for the first entry whose ip equals the sender address, fill in its port if
it was undefined, and report whether a match was found. -/
def updateFirstMatch : List ClientEntry → RemoteInfo → List ClientEntry × Bool
  | [], _ => ([], false)
  | c :: rest, r =>
    if c.ip = r.address then
      ((if c.port = Option.none then { c with port := some r.port } else c) :: rest, true)
    else
      let p := updateFirstMatch rest r
      (c :: p.1, p.2)

/-- The `message` listener body of `UDP.openPort`: match the sender against
the registry; if no peer is configured, learn unknown senders; forward the
datagram (second component `true`) only for accepted senders. -/
def onMessage (s : UDPState) (r : RemoteInfo) : UDPState × Bool :=
  let p := updateFirstMatch s.clients r
  if s.options.ip = IpOption.noIp then
    if p.2 then ({ s with clients := p.1 }, true)
    else ({ s with clients := p.1 ++ [⟨r.address, some r.port⟩] }, true)
  else
    ({ s with clients := p.1 }, p.2)

/-- `var port = this.options.sendPort || this.clients[i].port` followed by
the `if (port)` truthiness guard: 0 and undefined are both falsy. -/
def effectivePort (sendPort cport : Option Nat) : Option Nat :=
  let p := match sendPort with
    | some n => if n = 0 then cport else some n
    | Option.none => cport
  match p with
  | some n => if n = 0 then Option.none else some n
  | Option.none => Option.none

/-- The datagram deliveries performed by the send loop of `UDP.write`:
one send per registry entry with a truthy ip and a truthy resolved port. -/
def sendTargets (s : UDPState) : List (String × Nat) :=
  s.clients.filterMap fun c =>
    if c.ip ≠ "" then (effectivePort s.options.sendPort c.port).map fun p => (c.ip, p)
    else Option.none

/-- `UDP.write`: guard on handle presence, openness, and a non-empty client
registry, reporting failures synchronously through the callback; otherwise
send to every registered client. -/
def write (s : UDPState) : WriteOut :=
  if !s.hasPort then .ret false (some "Port does not exist") []
  else if isOpen s = false then .ret false (some "Not open") []
  else if s.clients.length = 0 then .ret false (some "No clients to send to") []
  else .ret true Option.none (sendTargets s)

/-- `UDP.closePort`: resolve immediately when no handle exists; otherwise
destroy the handle, and clear the client registry exactly when no fixed
peer list was configured (`if (self.options.ip == undefined)`). -/
def closePort (s : UDPState) : UDPState :=
  if !s.hasPort then s
  else { s with hasPort := false, connected := false,
                clients := if s.options.ip = IpOption.noIp then [] else s.clients }

/-- `UDP.openPort` resolution point (the bind callback): handle created and
`connected` set. -/
def openPort (s : UDPState) : UDPState :=
  { s with hasPort := true, connected := true }

/-- Whether `closePort` goes through `this.port.close(..)` and therefore
fires the socket `close` event seen by the manager: handle present and
`connected` still true. -/
def closeSignals (s : UDPState) : Bool := s.hasPort && s.connected

/-- `UDP.pipe`: throws when no handle exists. -/
def pipeRaw (s : UDPState) : Except String Unit :=
  if !s.hasPort then .error "Port does not exist" else .ok ()

end UDP

/-- Mutable state of the Serial adapter (class Serial, src/lib/UDP.ts).
`deviceListed` records whether `SerialPort.list()` currently enumerates the
configured path; `kernelAccepts` is the boolean the underlying stream
returns from a successful write. -/
structure SerialState where
  hasPort : Bool
  portIsOpen : Bool
  portWritable : Bool
  deviceListed : Bool
  kernelAccepts : Bool
  deriving DecidableEq

namespace Serial

/-- `get isOpen()`: `this.port != undefined && this.port.isOpen`. -/
def isOpen (s : SerialState) : Bool := s.hasPort && s.portIsOpen

/-- `Serial.portExists`: resolves with whether the device enumerates. -/
def portExists (s : SerialState) : Bool := s.deviceListed

/-- `Serial.write`: guard on handle, openness and writability, reporting
failures synchronously through the callback; otherwise delegate to the
underlying stream. -/
def write (s : SerialState) : WriteOut :=
  if !s.hasPort then .ret false (some "Port does not exist") []
  else if s.portIsOpen = false then .ret false (some "Port is not open") []
  else if s.portWritable = false then .ret false (some "Port is not writable") []
  else .ret s.kernelAccepts Option.none []

/-- `Serial.openPort` resolution point. -/
def openPort (s : SerialState) : SerialState :=
  { s with hasPort := true, portIsOpen := true, portWritable := true }

/-- `Serial.closePort`: resolve immediately when no handle exists,
otherwise destroy the handle. -/
def closePort (s : SerialState) : SerialState :=
  if !s.hasPort then s
  else { s with hasPort := false, portIsOpen := false, portWritable := false }

/-- Whether `closePort` fires the `close` event seen by the manager: only
when the port was open is `this.port.close(..)` called before the
listeners are removed. -/
def closeSignals (s : SerialState) : Bool := s.hasPort && s.portIsOpen

end Serial

/-- Mutable state of the TCP adapter (class TCP, src/lib/index.ts). -/
structure TCPState where
  hasPort : Bool
  socketClosed : Bool
  socketWritable : Bool
  deriving DecidableEq

namespace TCP

/-- `get isOpen()`: `this.port?.closed === false`. -/
def isOpen (s : TCPState) : Bool := s.hasPort && (s.socketClosed = false)

/-- `get writable()`: `this.isOpen && this.port?.writable === true`. -/
def writable (s : TCPState) : Bool := isOpen s && s.socketWritable

/-- `TCP.write`: guard on handle, openness and writability, reporting
failures synchronously through the callback. -/
def write (s : TCPState) : WriteOut :=
  if !s.hasPort then .ret false (some "Port does not exist") []
  else if isOpen s = false then .ret false (some "Not open") []
  else if writable s = false then .ret false (some "Not writable") []
  else .ret true Option.none []

/-- `TCP.openPort` with an eventually-ready socket. -/
def openPort (s : TCPState) : TCPState :=
  { s with hasPort := true, socketClosed := false, socketWritable := true }

/-- `TCP.closePort`: destroy the socket if a handle exists. -/
def closePort (s : TCPState) : TCPState :=
  if !s.hasPort then s
  else { s with hasPort := false, socketClosed := true, socketWritable := false }

/-- The TCP adapter never removes its listeners, so destroying any live
handle fires the socket `close` event seen by the manager. -/
def closeSignals (s : TCPState) : Bool := s.hasPort

end TCP

/-- The adapter owned by a lifecycle manager instance: one of the three
transport kinds implementing the BetterPortI contract. -/
inductive AdapterState where
  | udp (s : UDPState)
  | serial (s : SerialState)
  | tcp (s : TCPState)
  deriving DecidableEq

namespace AdapterState

/-- Whether the adapter currently holds a live OS handle with the manager
callbacks attached. -/
def hasHandle : AdapterState → Bool
  | udp s => s.hasPort
  | serial s => s.hasPort
  | tcp s => s.hasPort

/-- `portOpen()` of the adapter. -/
def portOpen : AdapterState → Bool
  | udp s => UDP.isOpen s
  | serial s => Serial.isOpen s
  | tcp s => TCP.isOpen s

/-- `portExists()` of the adapter: the network adapters always resolve
true; Serial reports device enumeration. -/
def portExists : AdapterState → Bool
  | udp _ => true
  | serial s => Serial.portExists s
  | tcp _ => true

/-- `write` of the adapter. -/
def write : AdapterState → WriteOut
  | udp s => UDP.write s
  | serial s => Serial.write s
  | tcp s => TCP.write s

/-- `closePort` of the adapter. -/
def closePort : AdapterState → AdapterState
  | udp s => .udp (UDP.closePort s)
  | serial s => .serial (Serial.closePort s)
  | tcp s => .tcp (TCP.closePort s)

/-- Resolution point of the adapter `openPort`. -/
def openPort : AdapterState → AdapterState
  | udp s => .udp (UDP.openPort s)
  | serial s => .serial (Serial.openPort s)
  | tcp s => .tcp (TCP.openPort s)

/-- Whether closing this adapter fires a `close` event at the manager. -/
def closeSignals : AdapterState → Bool
  | udp s => UDP.closeSignals s
  | serial s => Serial.closeSignals s
  | tcp s => TCP.closeSignals s

end AdapterState

/-- One registration of the pipe multiplexer: the destination sink
(identified by a number) and the attachment handle most recently returned
by `this.port.pipe`, identified by the adapter generation it attached to. -/
structure PipeReg where
  dest : Nat
  returnPipe : Nat
  deriving DecidableEq

/-- Mutable state of the lifecycle manager (class BaseBetterPort,
src/lib/UDP.ts): the owned adapter, the resolved configuration flags, the
no-data disconnect timer (`disconnectedChecker`, stored as its absolute
firing deadline), whether the reconnect loop of `closeCb` is pending
(`retryPending`), the count of adapter handles created so far (`gen`, used
to identify pipe attachments), and the pipe registrations. -/
structure ManagerState where
  adapter : AdapterState
  keepOpen : Bool
  closeOnNoData : Bool
  disconnectTimeoutMS : Nat
  reconnectTimeoutMS : Nat
  connectionAttemptTimeoutMS : Nat
  sendWhenOpened : Option (List Nat)
  disconnectedChecker : Option Nat
  retryPending : Bool
  gen : Nat
  pipes : List PipeReg
  deriving DecidableEq

/-- Public events emitted by the manager, plus the synchronous outcome of
each manager `write` call (`writeRes data retVal syncErr`: the data passed,
the boolean returned, and the error the callback was synchronously invoked
with, if any). -/
inductive Emit where
  | opened
  | closed
  | errored
  | dataOut
  | writeRes (data : List Nat) (retVal : Bool) (syncErr : Option String)
  deriving DecidableEq

namespace BaseBetterPort

/-- `BaseBetterPort.write`: delegate to the adapter write; the default
callback emits an `error` event when invoked with an error.  The `exn`
branch is unreachable: no adapter write throws. -/
def write (s : ManagerState) (data : List Nat) : ManagerState × List Emit :=
  match s.adapter.write with
  | .ret b err _ =>
      (s, (match err with | some _ => [Emit.errored] | Option.none => []) ++
          [Emit.writeRes data b err])
  | .exn _ => (s, [])

/-- The manager `closeCb` (registered as a once-listener for the adapter
close event): emit `close`, run `closePort` on the defunct handle, and
start the reconnect loop (modelled by `retryPending`). -/
def closeCb (s : ManagerState) : ManagerState × List Emit :=
  ({ s with adapter := s.adapter.closePort, retryPending := true }, [Emit.closed])

/-- `BaseBetterPort.closePort`: a permanent close clears `keepOpen` first;
then the adapter is closed.  When closing a live handle fires the adapter
close event, the once-registered `closeCb` runs. -/
def closePort (keepClosed : Bool) (s : ManagerState) : ManagerState × List Emit :=
  let s1 := if keepClosed then { s with keepOpen := false } else s
  if s1.adapter.closeSignals then closeCb s1
  else ({ s1 with adapter := s1.adapter.closePort }, [])

/-- The manager `openCb`: emit `open`, re-attach every registered pipe to
the raw data stream of the new handle (`updatePipes`), and write the
`sendWhenOpened` payload if one was configured. -/
def openCb (s : ManagerState) : ManagerState × List Emit :=
  let s1 := { s with pipes := s.pipes.map fun (p : PipeReg) => { p with returnPipe := s.gen } }
  match s1.sendWhenOpened with
  | some d =>
      let r := write s1 d
      (r.1, Emit.opened :: r.2)
  | Option.none => (s1, [Emit.opened])

/-- `BaseBetterPort.openPort`: update `keepOpen` when an argument was
supplied; resolve immediately when the adapter is already open; reject
with "Port does not exist" when the existence check fails; otherwise close
any stale handle and open the adapter (`ok` carries the resolution of the
external open). -/
def openPort (ko : Option Bool) (ok : Bool) (s : ManagerState) :
    Except String Unit × ManagerState × List Emit :=
  let s1 := match ko with | some b => { s with keepOpen := b } | Option.none => s
  if s1.adapter.portOpen then (.ok (), s1, [])
  else if s1.adapter.portExists = false then (.error "Port does not exist", s1, [])
  else
    let r := closePort false s1
    if ok then (.ok (), { r.1 with adapter := r.1.adapter.openPort, gen := r.1.gen + 1 }, r.2)
    else (.error "open failed", r.1, r.2)

/-- The manager `dataCb`: emit `data`; when `closeOnNoData` is set, re-arm
the disconnect timer to fire `disconnectTimeoutMS` after now. -/
def dataCb (s : ManagerState) (now : Nat) : ManagerState × List Emit :=
  if s.closeOnNoData then
    ({ s with disconnectedChecker := some (now + s.disconnectTimeoutMS) }, [Emit.dataOut])
  else (s, [Emit.dataOut])

/-- The disconnect-timer callback: the timeout has fired, so it is no
longer pending; force a close. -/
def timerCb (s : ManagerState) : ManagerState × List Emit :=
  closePort false { s with disconnectedChecker := Option.none }

/-- The events driving one manager instance: caller-invoked operations,
adapter signals (enabled only while a handle with attached listeners
exists), the disconnect-timer firing (enabled only once its deadline has
passed), and one turn of the reconnect loop.  `ok` parameters carry the
resolutions of external open attempts. -/
inductive Ev where
  | callOpen (ko : Option Bool) (ok : Bool)
  | callClose (keepClosed : Bool)
  | callWrite (data : List Nat)
  | adapterOpenEvt
  | adapterCloseEvt
  | adapterErrorEvt
  | dataEvt
  | timerFire
  | retryTick (ok : Bool)
  deriving DecidableEq

/-- One transition of the manager at time `now`: the effect of the event
on the state, with the list of emitted events and write outcomes.  Events
whose trigger is not live (adapter signals without a handle, a timer that
is not due) do nothing. -/
def step (s : ManagerState) (now : Nat) (e : Ev) : ManagerState × List Emit :=
  match e with
  | .callOpen ko ok => let r := openPort ko ok s; (r.2.1, r.2.2)
  | .callClose kc => closePort kc s
  | .callWrite d => write s d
  | .adapterOpenEvt => if s.adapter.hasHandle then openCb s else (s, [])
  | .adapterCloseEvt => if s.adapter.hasHandle then closeCb s else (s, [])
  | .adapterErrorEvt =>
      if s.adapter.hasHandle then
        if s.adapter.portOpen then
          let r := closePort false s
          (r.1, Emit.errored :: r.2)
        else
          let r := closeCb s
          (r.1, Emit.errored :: r.2)
      else (s, [])
  | .dataEvt => if s.adapter.hasHandle then dataCb s now else (s, [])
  | .timerFire =>
      match s.disconnectedChecker with
      | some d => if d ≤ now then timerCb s else (s, [])
      | Option.none => (s, [])
  | .retryTick ok =>
      if s.retryPending then
        if s.keepOpen then
          match openPort Option.none ok s with
          | (.ok _, s', out) => ({ s' with retryPending := false }, out)
          | (.error _, s', out) =>
              let r := closePort false s'
              ({ r.1 with retryPending := true }, out ++ r.2)
        else ({ s with retryPending := false }, [])
      else (s, [])

/-- Run the manager over a timestamped event trace, collecting emissions. -/
def run : ManagerState → List (Nat × Ev) → ManagerState × List Emit
  | s, [] => (s, [])
  | s, (t, e) :: tr =>
    let r := step s t e
    let r2 := run r.1 tr
    (r2.1, r.2 ++ r2.2)

end BaseBetterPort

/-! ### Concrete instances and scenario traces used in the theorems -/

/-- An open UDP adapter in listener mode (no configured peer) with an
empty client registry. -/
def udpFresh : UDPState :=
  ⟨⟨IpOption.noIp, Option.none, some 6020⟩, true, true, []⟩

/-- The datagram source used in concrete scenarios. -/
def rinfo7 : RemoteInfo := ⟨"10.0.0.7", 3333⟩

/-- A UDP adapter in listener mode (no configured peer) that has learned
one client from an inbound datagram. -/
def udpLearned : UDPState :=
  ⟨⟨IpOption.noIp, Option.none, some 6020⟩, true, true, [⟨"10.0.0.7", some 3333⟩]⟩

/-- A UDP adapter configured with a fixed peer address. -/
def udpFixed : UDPState :=
  ⟨⟨IpOption.single "10.0.0.1", some 14550, Option.none⟩, true, true,
   [⟨"10.0.0.1", some 14550⟩]⟩

/-- An open UDP-backed manager instance with `closeOnNoData = true` and a
1000 ms disconnect timeout, immediately after a successful open, before
any data has arrived. -/
def mgrOpen : ManagerState :=
  ManagerState.mk (.udp udpLearned) true true 1000 1000 5000 Option.none
    Option.none false 1 []

/-- After a permanent close: automatic reopening disabled and no live
adapter handle. -/
def DeadQuiet (s : ManagerState) : Prop :=
  s.keepOpen = false ∧ s.adapter.hasHandle = false

/-- An emission list with no `open` event and only rejected write
outcomes. -/
def RejectingOut (out : List Emit) : Prop :=
  Emit.opened ∉ out ∧
  ∀ d b err, Emit.writeRes d b err ∈ out → b = false ∧ err ≠ Option.none

/-- A list of timer-fire attempts as a trace fragment. -/
def timerBlock (ts : List Nat) : List (Nat × BaseBetterPort.Ev) :=
  ts.map fun t => (t, BaseBetterPort.Ev.timerFire)

/-- The trace of a run in which inbound data arrives every 500 ms starting
at block index `k`, with arbitrary timer-fire attempts between data
events. -/
def dataSchedule : List (List Nat) → Nat → List (Nat × BaseBetterPort.Ev)
  | [], _ => []
  | ts :: rest, k =>
    (500 * k, BaseBetterPort.Ev.dataEvt) :: (timerBlock ts ++ dataSchedule rest (k + 1))

/-- Timing constraint of the 500 ms data schedule: every timer-fire
attempt happens before the deadline armed by the data event opening its
block. -/
def blocksOk : List (List Nat) → Nat → Prop
  | [], _ => True
  | ts :: rest, k => (∀ t ∈ ts, t < 500 * k + 1000) ∧ blocksOk rest (k + 1)

instance blocksOk.dec : (bs : List (List Nat)) → (k : Nat) → Decidable (blocksOk bs k)
  | [], _ => .isTrue trivial
  | _ :: rest, k =>
    haveI := blocksOk.dec rest (k + 1)
    inferInstanceAs (Decidable (_ ∧ _))

/-! ### Registry lemmas for the UDP message handler -/

theorem UDP.updateFirstMatch_not_found (cs : List ClientEntry) (r : RemoteInfo)
    (h : ∀ c ∈ cs, c.ip ≠ r.address) : UDP.updateFirstMatch cs r = (cs, false) := by
  induction cs with
  | nil => rfl
  | cons c rest ih =>
    have hc : ¬ (c.ip = r.address) := h c (by simp)
    simp [UDP.updateFirstMatch, hc, ih fun c' hc' => h c' (by simp [hc'])]

theorem UDP.updateFirstMatch_length (cs : List ClientEntry) (r : RemoteInfo) :
    (UDP.updateFirstMatch cs r).1.length = cs.length := by
  induction cs with
  | nil => rfl
  | cons c rest ih =>
    by_cases hc : c.ip = r.address <;> simp [UDP.updateFirstMatch, hc, ih]

theorem UDP.updateFirstMatch_found (cs : List ClientEntry) (r : RemoteInfo)
    (h : ∃ c ∈ cs, c.ip = r.address) : (UDP.updateFirstMatch cs r).2 = true := by
  induction cs with
  | nil => simp at h
  | cons c rest ih =>
    by_cases hc : c.ip = r.address
    · simp [UDP.updateFirstMatch, hc]
    · rcases h with ⟨c', hc', he⟩
      rcases List.mem_cons.mp hc' with h1 | h1
      · exact absurd (h1 ▸ he) hc
      · simp [UDP.updateFirstMatch, hc, ih ⟨c', h1, he⟩]

example :
    (UDP.onMessage (UDP.mk ⟨IpOption.noIp, Option.none, some 6020⟩) ⟨"10.0.0.7", 3333⟩).1.clients
      = [⟨"10.0.0.7", some 3333⟩] := by decide

example :
    (UDP.onMessage (UDP.mk ⟨IpOption.single "10.0.0.1", Option.none, some 14550⟩)
      ⟨"10.0.0.7", 3333⟩).2 = false := by decide

/-- Claim C3: UDP peer filtering and learning.  With a fixed peer list
configured, a datagram from an unknown sender changes nothing and is not
forwarded.  With no peer configured, a datagram from a new sender appends
exactly one registry entry and is forwarded; a subsequent write succeeds
and delivers a datagram to that sender address; a second datagram from the
same address is forwarded without growing the registry. -/
theorem UDP.peer_filtering_and_learning (u : UDPState) (r : RemoteInfo)
    (hnew : ∀ c ∈ u.clients, c.ip ≠ r.address)
    (haddr : r.address ≠ "") (hport : r.port ≠ 0)
    (hhp : u.hasPort = true) (hcn : u.connected = true) :
    (u.options.ip ≠ IpOption.noIp → UDP.onMessage u r = (u, false)) ∧
    (u.options.ip = IpOption.noIp →
      UDP.onMessage u r =
        ({ u with clients := u.clients ++ [⟨r.address, some r.port⟩] }, true) ∧
      UDP.write (UDP.onMessage u r).1 =
        .ret true Option.none (UDP.sendTargets (UDP.onMessage u r).1) ∧
      (∃ p, p ≠ 0 ∧ (r.address, p) ∈ UDP.sendTargets (UDP.onMessage u r).1) ∧
      (UDP.onMessage (UDP.onMessage u r).1 r).1.clients.length =
        (UDP.onMessage u r).1.clients.length ∧
      (UDP.onMessage (UDP.onMessage u r).1 r).2 = true) := by
  have hupd := UDP.updateFirstMatch_not_found u.clients r hnew
  constructor
  · intro hip
    simp [UDP.onMessage, hupd, hip]
  · intro hip
    have hmsg : UDP.onMessage u r =
        ({ u with clients := u.clients ++ [⟨r.address, some r.port⟩] }, true) := by
      simp [UDP.onMessage, hupd, hip]
    refine ⟨hmsg, ?_, ?_, ?_, ?_⟩
    · rw [hmsg]
      simp [UDP.write, UDP.isOpen, hhp, hcn]
    · rw [hmsg]
      refine ⟨match u.options.sendPort with
              | some n => if n = 0 then r.port else n
              | Option.none => r.port, ?_, ?_⟩
      · rcases hsp : u.options.sendPort with _ | n
        · simpa using hport
        · by_cases hn : n = 0 <;> simp [hn, hport]
      · rcases hsp : u.options.sendPort with _ | n
        · simp [UDP.sendTargets, UDP.effectivePort, hsp, haddr, hport]
        · by_cases hn : n = 0 <;>
            simp [UDP.sendTargets, UDP.effectivePort, hsp, haddr, hport, hn]
    · rw [hmsg]
      have hfound : (UDP.updateFirstMatch
          (u.clients ++ [⟨r.address, some r.port⟩]) r).2 = true :=
        UDP.updateFirstMatch_found _ r ⟨⟨r.address, some r.port⟩, by simp, rfl⟩
      simp [UDP.onMessage, hip, hfound, UDP.updateFirstMatch_length]
    · rw [hmsg]
      have hfound : (UDP.updateFirstMatch
          (u.clients ++ [⟨r.address, some r.port⟩]) r).2 = true :=
        UDP.updateFirstMatch_found _ r ⟨⟨r.address, some r.port⟩, by simp, rfl⟩
      simp [UDP.onMessage, hip, hfound]

/-- Witness for C3 at a concrete listener-mode adapter and sender. -/
theorem UDP.peer_filtering_and_learning_witness :
    UDP.onMessage udpFresh rinfo7 =
      ({ udpFresh with clients := udpFresh.clients ++ [⟨rinfo7.address, some rinfo7.port⟩] },
       true) ∧
    UDP.write (UDP.onMessage udpFresh rinfo7).1 =
      .ret true Option.none (UDP.sendTargets (UDP.onMessage udpFresh rinfo7).1) ∧
    (∃ p, p ≠ 0 ∧ (rinfo7.address, p) ∈ UDP.sendTargets (UDP.onMessage udpFresh rinfo7).1) ∧
    (UDP.onMessage (UDP.onMessage udpFresh rinfo7).1 rinfo7).1.clients.length =
      (UDP.onMessage udpFresh rinfo7).1.clients.length ∧
    (UDP.onMessage (UDP.onMessage udpFresh rinfo7).1 rinfo7).2 = true :=
  (UDP.peer_filtering_and_learning udpFresh rinfo7
    (by decide) (by decide) (by decide) (by decide) (by decide)).2 (by decide)

/-- Claim C5: whenever write is called while the transport is not open,
not writable, or (UDP) has no registered peer, each adapter reports the
failure synchronously through the write callback and returns false; the
result is a synchronous return, never a thrown exception. -/
theorem adapters_write_rejected_synchronously :
    (∀ u : UDPState, UDP.isOpen u = false ∨ u.clients = [] →
      ∃ m, UDP.write u = .ret false (some m) []) ∧
    (∀ s : SerialState, Serial.isOpen s = false ∨ s.portWritable = false →
      ∃ m, Serial.write s = .ret false (some m) []) ∧
    (∀ t : TCPState, TCP.isOpen t = false ∨ TCP.writable t = false →
      ∃ m, TCP.write t = .ret false (some m) []) := by
  refine ⟨?_, ?_, ?_⟩
  · intro u h
    by_cases hp : u.hasPort
    · by_cases ho : UDP.isOpen u
      · rcases h with h | h
        · exact absurd ho (by simp [h])
        · exact ⟨"No clients to send to", by simp [UDP.write, hp, ho, h]⟩
      · exact ⟨"Not open", by simp [UDP.write, hp, Bool.not_eq_true _ ▸ ho,
          eq_false_of_ne_true ho]⟩
    · exact ⟨"Port does not exist", by simp [UDP.write, hp]⟩
  · intro s h
    by_cases hp : s.hasPort
    · by_cases ho : s.portIsOpen
      · have hw : s.portWritable = false := by
          rcases h with h | h
          · have hoy : Serial.isOpen s = true := by simp [Serial.isOpen, hp, ho]
            rw [h] at hoy
            exact absurd hoy Bool.false_ne_true
          · exact h
        exact ⟨"Port is not writable", by simp [Serial.write, hp, ho, hw]⟩
      · exact ⟨"Port is not open", by simp [Serial.write, hp, eq_false_of_ne_true ho]⟩
    · exact ⟨"Port does not exist", by simp [Serial.write, hp]⟩
  · intro t h
    by_cases hp : t.hasPort
    · by_cases ho : TCP.isOpen t
      · have hw : TCP.writable t = false := by
          rcases h with h | h
          · exact absurd ho (by simp [h])
          · exact h
        exact ⟨"Not writable", by simp [TCP.write, hp, ho, hw]⟩
      · exact ⟨"Not open", by simp [TCP.write, hp, eq_false_of_ne_true ho]⟩
    · exact ⟨"Port does not exist", by simp [TCP.write, hp]⟩

/-- Witness for C5: concrete closed adapters of all three kinds. -/
theorem adapters_write_rejected_synchronously_witness :
    (∃ m, UDP.write (UDPState.mk ⟨IpOption.noIp, Option.none, some 6020⟩ true true [])
        = .ret false (some m) []) ∧
    (∃ m, Serial.write (SerialState.mk true true false true true)
        = .ret false (some m) []) ∧
    (∃ m, TCP.write (TCPState.mk false true false) = .ret false (some m) []) :=
  ⟨adapters_write_rejected_synchronously.1
      (UDPState.mk ⟨IpOption.noIp, Option.none, some 6020⟩ true true []) (Or.inr rfl),
   adapters_write_rejected_synchronously.2.1
      (SerialState.mk true true false true true) (Or.inr rfl),
   adapters_write_rejected_synchronously.2.2
      (TCPState.mk false true false) (Or.inl rfl)⟩

/-- Claim C9, counterexample: closing a listener-mode UDP adapter with one
learned peer clears the registry, so the registered entries do not persist
across a close/reopen cycle. -/
theorem UDP.closePort_clears_learned_clients :
    (UDP.closePort udpLearned).clients ≠ udpLearned.clients := by decide

/-- Claim C9, amended: closing the UDP adapter preserves the client
registry exactly when a fixed peer list is configured; in listener mode
(no configured peer) closing a live handle clears every learned entry. -/
theorem UDP.closePort_registry_persistence (u : UDPState) :
    (u.options.ip ≠ IpOption.noIp → (UDP.closePort u).clients = u.clients) ∧
    (u.options.ip = IpOption.noIp → u.hasPort = true →
      (UDP.closePort u).clients = []) := by
  constructor
  · intro hip
    by_cases hp : u.hasPort <;> simp [UDP.closePort, hp, hip]
  · intro hip hp
    simp [UDP.closePort, hp, hip]

/-- Witness for the amended C9 at concrete fixed-peer and listener-mode
adapters. -/
theorem UDP.closePort_registry_persistence_witness :
    (UDP.closePort udpFixed).clients = udpFixed.clients ∧
    (UDP.closePort udpLearned).clients = [] :=
  ⟨(UDP.closePort_registry_persistence udpFixed).1 (by decide),
   (UDP.closePort_registry_persistence udpLearned).2 (by decide) (by decide)⟩

/-! ### Adapter facts used by the manager proofs -/

theorem AdapterState.closePort_hasHandle (a : AdapterState) :
    a.closePort.hasHandle = false := by
  cases a with
  | udp s =>
    by_cases hp : s.hasPort <;>
      simp [AdapterState.closePort, AdapterState.hasHandle, UDP.closePort, hp]
  | serial s =>
    by_cases hp : s.hasPort <;>
      simp [AdapterState.closePort, AdapterState.hasHandle, Serial.closePort, hp]
  | tcp s =>
    by_cases hp : s.hasPort <;>
      simp [AdapterState.closePort, AdapterState.hasHandle, TCP.closePort, hp]

theorem AdapterState.closePort_of_dead (a : AdapterState) (h : a.hasHandle = false) :
    a.closePort = a := by
  cases a with
  | udp s =>
    simp [AdapterState.hasHandle] at h
    simp [AdapterState.closePort, UDP.closePort, h]
  | serial s =>
    simp [AdapterState.hasHandle] at h
    simp [AdapterState.closePort, Serial.closePort, h]
  | tcp s =>
    simp [AdapterState.hasHandle] at h
    simp [AdapterState.closePort, TCP.closePort, h]

theorem AdapterState.closeSignals_of_dead (a : AdapterState) (h : a.hasHandle = false) :
    a.closeSignals = false := by
  cases a with
  | udp s =>
    simp [AdapterState.hasHandle] at h
    simp [AdapterState.closeSignals, UDP.closeSignals, h]
  | serial s =>
    simp [AdapterState.hasHandle] at h
    simp [AdapterState.closeSignals, Serial.closeSignals, h]
  | tcp s =>
    simp [AdapterState.hasHandle] at h
    simp [AdapterState.closeSignals, TCP.closeSignals, h]

theorem AdapterState.write_of_dead (a : AdapterState) (h : a.hasHandle = false) :
    a.write = .ret false (some "Port does not exist") [] := by
  cases a with
  | udp s =>
    simp [AdapterState.hasHandle] at h
    simp [AdapterState.write, UDP.write, h]
  | serial s =>
    simp [AdapterState.hasHandle] at h
    simp [AdapterState.write, Serial.write, h]
  | tcp s =>
    simp [AdapterState.hasHandle] at h
    simp [AdapterState.write, TCP.write, h]

theorem AdapterState.write_no_exn (a : AdapterState) :
    ∃ b e l, a.write = WriteOut.ret b e l := by
  cases a with
  | udp s =>
    simp only [AdapterState.write, UDP.write]
    repeat' split
    all_goals exact ⟨_, _, _, rfl⟩
  | serial s =>
    simp only [AdapterState.write, Serial.write]
    repeat' split
    all_goals exact ⟨_, _, _, rfl⟩
  | tcp s =>
    simp only [AdapterState.write, TCP.write]
    repeat' split
    all_goals exact ⟨_, _, _, rfl⟩

/-- Claim C4: when the adapter existence check reports the target absent,
a caller-invoked openPort rejects with the not-found error, emits no
events, and changes nothing but the keep-open flag; in particular no
automatic retry is scheduled. -/
theorem BaseBetterPort.openPort_notFound (s : ManagerState) (ko : Option Bool) (ok : Bool)
    (hno : s.adapter.portOpen = false) (hex : s.adapter.portExists = false) :
    BaseBetterPort.openPort ko ok s =
      (.error "Port does not exist",
       (match ko with | some b => { s with keepOpen := b } | Option.none => s), []) := by
  cases ko <;> simp [BaseBetterPort.openPort, hno, hex]

/-- Witness for C4: a serial adapter whose device path does not enumerate. -/
theorem BaseBetterPort.openPort_notFound_witness :
    BaseBetterPort.openPort Option.none true
      (ManagerState.mk (.serial (SerialState.mk false false false false true))
        true true 5000 1000 5000 Option.none Option.none false 0 []) =
      (.error "Port does not exist",
       ManagerState.mk (.serial (SerialState.mk false false false false true))
         true true 5000 1000 5000 Option.none Option.none false 0 [], []) :=
  BaseBetterPort.openPort_notFound
    (ManagerState.mk (.serial (SerialState.mk false false false false true))
      true true 5000 1000 5000 Option.none Option.none false 0 [])
    Option.none true (by decide) (by decide)

/-- Claim C6: closePort on an already-closed instance (no live adapter
handle) resolves with no emitted events and no state change, a second call
behaves identically, and at the adapter level UDP closePort without a
handle is the identity. -/
theorem BaseBetterPort.closePort_idempotent (s : ManagerState)
    (h : s.adapter.hasHandle = false) :
    BaseBetterPort.closePort false s = (s, []) ∧
    BaseBetterPort.closePort false (BaseBetterPort.closePort false s).1 = (s, []) ∧
    (∀ u : UDPState, u.hasPort = false → UDP.closePort u = u) := by
  have h1 : BaseBetterPort.closePort false s = (s, []) := by
    simp [BaseBetterPort.closePort, AdapterState.closeSignals_of_dead s.adapter h,
      AdapterState.closePort_of_dead s.adapter h]
  exact ⟨h1, by rw [h1]; exact h1, fun u hu => by simp [UDP.closePort, hu]⟩

/-- Witness for C6: a freshly constructed (never opened) UDP instance. -/
theorem BaseBetterPort.closePort_idempotent_witness :
    BaseBetterPort.closePort false
      (ManagerState.mk (.udp (UDP.mk ⟨IpOption.noIp, Option.none, some 6020⟩))
        true true 5000 1000 5000 Option.none Option.none false 0 []) =
      (ManagerState.mk (.udp (UDP.mk ⟨IpOption.noIp, Option.none, some 6020⟩))
        true true 5000 1000 5000 Option.none Option.none false 0 [], []) ∧
    BaseBetterPort.closePort false
      (BaseBetterPort.closePort false
        (ManagerState.mk (.udp (UDP.mk ⟨IpOption.noIp, Option.none, some 6020⟩))
          true true 5000 1000 5000 Option.none Option.none false 0 [])).1 =
      (ManagerState.mk (.udp (UDP.mk ⟨IpOption.noIp, Option.none, some 6020⟩))
        true true 5000 1000 5000 Option.none Option.none false 0 [], []) ∧
    (∀ u : UDPState, u.hasPort = false → UDP.closePort u = u) :=
  BaseBetterPort.closePort_idempotent
    (ManagerState.mk (.udp (UDP.mk ⟨IpOption.noIp, Option.none, some 6020⟩))
      true true 5000 1000 5000 Option.none Option.none false 0 []) (by decide)

/-- Claim C7: openPort while the adapter is already open resolves
successfully with no events and no adapter teardown or recreation; the
only state change is the keep-open flag when an argument was supplied. -/
theorem BaseBetterPort.openPort_alreadyOpen (s : ManagerState) (ko : Option Bool)
    (ok : Bool) (h : s.adapter.portOpen = true) :
    BaseBetterPort.openPort ko ok s =
      (.ok (), (match ko with | some b => { s with keepOpen := b } | Option.none => s),
       []) := by
  cases ko <;> simp [BaseBetterPort.openPort, h]

/-- Witness for C7: an open UDP-backed instance, with a keep-open argument
supplied. -/
theorem BaseBetterPort.openPort_alreadyOpen_witness :
    BaseBetterPort.openPort (some false) true
      (ManagerState.mk (.udp udpLearned)
        true true 5000 1000 5000 Option.none Option.none false 1 []) =
      (.ok (),
       { ManagerState.mk (.udp udpLearned)
           true true 5000 1000 5000 Option.none Option.none false 1 [] with
         keepOpen := false }, []) :=
  BaseBetterPort.openPort_alreadyOpen
    (ManagerState.mk (.udp udpLearned)
      true true 5000 1000 5000 Option.none Option.none false 1 [])
    (some false) true (by decide)

/-- Claim C8: on every successful open the manager first emits `open`,
re-attaches every registered pipe destination in registration order to the
new handle (recording the new attachment handle, the current adapter
generation), invokes write with the configured sendWhenOpened payload when
one is set, and emits nothing further when none is set. -/
theorem BaseBetterPort.openCb_reattaches_pipes (s : ManagerState) (t : Nat)
    (h : s.adapter.hasHandle = true) :
    (BaseBetterPort.step s t Ev.adapterOpenEvt).2.head? = some Emit.opened ∧
    (BaseBetterPort.step s t Ev.adapterOpenEvt).1.pipes =
      s.pipes.map (fun (p : PipeReg) => { p with returnPipe := s.gen }) ∧
    (∀ d, s.sendWhenOpened = some d →
      ∃ b err, Emit.writeRes d b err ∈ (BaseBetterPort.step s t Ev.adapterOpenEvt).2) ∧
    (s.sendWhenOpened = Option.none →
      (BaseBetterPort.step s t Ev.adapterOpenEvt).2 = [Emit.opened]) := by
  obtain ⟨b, e, l, hw⟩ := AdapterState.write_no_exn s.adapter
  rcases hso : s.sendWhenOpened with _ | d
  · simp [BaseBetterPort.step, h, BaseBetterPort.openCb, hso]
  · refine ⟨?_, ?_, ?_, by simp [hso]⟩
    · simp [BaseBetterPort.step, h, BaseBetterPort.openCb, hso, BaseBetterPort.write, hw]
    · simp [BaseBetterPort.step, h, BaseBetterPort.openCb, hso, BaseBetterPort.write, hw]
    · intro d' hd'
      cases hd'
      refine ⟨b, e, ?_⟩
      rcases e with _ | msg <;>
        simp [BaseBetterPort.step, h, BaseBetterPort.openCb, hso, BaseBetterPort.write, hw]

/-- Witness for C8: an open UDP-backed instance with two registered pipes
and a configured payload. -/
theorem BaseBetterPort.openCb_reattaches_pipes_witness :
    (BaseBetterPort.step
      (ManagerState.mk (.udp udpLearned) true true 5000 1000 5000 (some [7, 7])
        Option.none false 3 [⟨10, 1⟩, ⟨11, 2⟩]) 0 Ev.adapterOpenEvt).2.head? =
      some Emit.opened ∧
    (BaseBetterPort.step
      (ManagerState.mk (.udp udpLearned) true true 5000 1000 5000 (some [7, 7])
        Option.none false 3 [⟨10, 1⟩, ⟨11, 2⟩]) 0 Ev.adapterOpenEvt).1.pipes =
      [PipeReg.mk 10 1, PipeReg.mk 11 2].map
        (fun (p : PipeReg) => { p with returnPipe := 3 }) ∧
    (∀ d, (some [7, 7] : Option (List Nat)) = some d →
      ∃ b err, Emit.writeRes d b err ∈
        (BaseBetterPort.step
          (ManagerState.mk (.udp udpLearned) true true 5000 1000 5000 (some [7, 7])
            Option.none false 3 [⟨10, 1⟩, ⟨11, 2⟩]) 0 Ev.adapterOpenEvt).2) ∧
    ((some [7, 7] : Option (List Nat)) = Option.none →
      (BaseBetterPort.step
        (ManagerState.mk (.udp udpLearned) true true 5000 1000 5000 (some [7, 7])
          Option.none false 3 [⟨10, 1⟩, ⟨11, 2⟩]) 0 Ev.adapterOpenEvt).2 =
        [Emit.opened]) :=
  BaseBetterPort.openCb_reattaches_pipes
    (ManagerState.mk (.udp udpLearned) true true 5000 1000 5000 (some [7, 7])
      Option.none false 3 [⟨10, 1⟩, ⟨11, 2⟩]) 0 (by decide)

/-! ### Permanent close: quiescence invariant -/

theorem RejectingOut.nil : RejectingOut [] := by
  constructor <;> simp

theorem RejectingOut.append {o1 o2 : List Emit}
    (h1 : RejectingOut o1) (h2 : RejectingOut o2) : RejectingOut (o1 ++ o2) := by
  refine ⟨by simp [h1.1, h2.1], ?_⟩
  intro d b err hm
  rcases List.mem_append.mp hm with hm | hm
  · exact h1.2 d b err hm
  · exact h2.2 d b err hm

theorem DeadQuiet.closePort {s : ManagerState} (hd : DeadQuiet s) (kc : Bool) :
    DeadQuiet (BaseBetterPort.closePort kc s).1 ∧
    (BaseBetterPort.closePort kc s).2 = [] := by
  have h1 : (if kc then { s with keepOpen := false } else s).adapter = s.adapter := by
    cases kc <;> rfl
  have h2 : (if kc then { s with keepOpen := false } else s).keepOpen = false := by
    cases kc <;> simp [hd.1]
  simp only [BaseBetterPort.closePort, h1, AdapterState.closeSignals_of_dead s.adapter hd.2,
    Bool.false_eq_true, if_false]
  exact ⟨⟨h2, AdapterState.closePort_hasHandle s.adapter⟩, trivial⟩

theorem dead_step (s : ManagerState) (t : Nat) (e : BaseBetterPort.Ev)
    (hd : DeadQuiet s) (he : ∀ ko ok, e ≠ BaseBetterPort.Ev.callOpen ko ok) :
    DeadQuiet (BaseBetterPort.step s t e).1 ∧
    RejectingOut (BaseBetterPort.step s t e).2 := by
  cases e with
  | callOpen ko ok => exact absurd rfl (he ko ok)
  | callClose kc =>
    have h := hd.closePort kc
    exact ⟨h.1, by simp only [BaseBetterPort.step, h.2]; exact RejectingOut.nil⟩
  | callWrite d =>
    have hw := AdapterState.write_of_dead s.adapter hd.2
    refine ⟨?_, ?_⟩
    · simp only [BaseBetterPort.step, BaseBetterPort.write, hw]
      exact hd
    · simp only [BaseBetterPort.step, BaseBetterPort.write, hw]
      refine ⟨by simp, ?_⟩
      intro d' b err hm
      simp at hm
      exact ⟨hm.2.1, by simp [hm.2.2]⟩
  | adapterOpenEvt =>
    simp only [BaseBetterPort.step, hd.2, Bool.false_eq_true, if_false]
    exact ⟨hd, RejectingOut.nil⟩
  | adapterCloseEvt =>
    simp only [BaseBetterPort.step, hd.2, Bool.false_eq_true, if_false]
    exact ⟨hd, RejectingOut.nil⟩
  | adapterErrorEvt =>
    simp only [BaseBetterPort.step, hd.2, Bool.false_eq_true, if_false]
    exact ⟨hd, RejectingOut.nil⟩
  | dataEvt =>
    simp only [BaseBetterPort.step, hd.2, Bool.false_eq_true, if_false]
    exact ⟨hd, RejectingOut.nil⟩
  | timerFire =>
    rcases hch : s.disconnectedChecker with _ | dl
    · simp only [BaseBetterPort.step, hch]
      exact ⟨hd, RejectingOut.nil⟩
    · by_cases hle : dl ≤ t
      · have hd' : DeadQuiet { s with disconnectedChecker := Option.none } := hd
        have h := hd'.closePort false
        simp only [BaseBetterPort.step, hch, hle, if_true, BaseBetterPort.timerCb]
        exact ⟨h.1, by rw [h.2]; exact RejectingOut.nil⟩
      · simp only [BaseBetterPort.step, hch, hle, if_false]
        exact ⟨hd, RejectingOut.nil⟩
  | retryTick ok =>
    by_cases hr : s.retryPending
    · simp only [BaseBetterPort.step, hr, if_true, hd.1, Bool.false_eq_true, if_false]
      exact ⟨⟨rfl, hd.2⟩, RejectingOut.nil⟩
    · simp only [BaseBetterPort.step, hr, if_false]
      exact ⟨hd, RejectingOut.nil⟩

theorem dead_run (tr : List (Nat × BaseBetterPort.Ev)) (s : ManagerState)
    (hd : DeadQuiet s)
    (he : ∀ p ∈ tr, ∀ ko ok, p.2 ≠ BaseBetterPort.Ev.callOpen ko ok) :
    RejectingOut (BaseBetterPort.run s tr).2 := by
  induction tr generalizing s with
  | nil => exact RejectingOut.nil
  | cons p rest ih =>
    obtain ⟨t, e⟩ := p
    have h1 := dead_step s t e hd (he (t, e) (by simp))
    have h2 := ih (BaseBetterPort.step s t e).1 h1.1
      (fun q hq => he q (by simp [hq]))
    exact h1.2.append h2

theorem closePort_permanent_dead (s : ManagerState) :
    DeadQuiet (BaseBetterPort.closePort true s).1 := by
  by_cases hs : ({ s with keepOpen := false } : ManagerState).adapter.closeSignals
  · simp only [BaseBetterPort.closePort, if_true, hs, BaseBetterPort.closeCb]
    exact ⟨rfl, AdapterState.closePort_hasHandle _⟩
  · simp only [BaseBetterPort.closePort, if_true, hs, Bool.false_eq_true, if_false]
    exact ⟨rfl, AdapterState.closePort_hasHandle _⟩

/-- Claim C1: after a permanent close completes, for any trace of further
events that does not contain an explicit openPort call, every write is
rejected (returns false with the callback synchronously receiving an
error) and no `open` event is ever emitted. -/
theorem BaseBetterPort.permanentClose_quiescent (s : ManagerState)
    (tr : List (Nat × BaseBetterPort.Ev))
    (he : ∀ p ∈ tr, ∀ ko ok, p.2 ≠ BaseBetterPort.Ev.callOpen ko ok) :
    Emit.opened ∉ (BaseBetterPort.run (BaseBetterPort.closePort true s).1 tr).2 ∧
    ∀ d b err,
      Emit.writeRes d b err ∈
        (BaseBetterPort.run (BaseBetterPort.closePort true s).1 tr).2 →
      b = false ∧ err ≠ Option.none :=
  dead_run tr (BaseBetterPort.closePort true s).1 (closePort_permanent_dead s) he

/-- Witness for C1: a fully open UDP-backed instance, permanently closed,
then driven by writes, timer fires, retry turns and adapter signals. -/
theorem BaseBetterPort.permanentClose_quiescent_witness :
    Emit.opened ∉ (BaseBetterPort.run
      (BaseBetterPort.closePort true
        (ManagerState.mk (.udp udpLearned) true true 1000 1000 5000 Option.none
          (some 900) false 2 [⟨10, 1⟩])).1
      [(0, BaseBetterPort.Ev.callWrite [1, 2]), (900, BaseBetterPort.Ev.timerFire),
       (1000, BaseBetterPort.Ev.retryTick true), (1500, BaseBetterPort.Ev.adapterOpenEvt),
       (2000, BaseBetterPort.Ev.callWrite [3]), (2500, BaseBetterPort.Ev.callClose false)]).2 ∧
    ∀ d b err,
      Emit.writeRes d b err ∈
        (BaseBetterPort.run
          (BaseBetterPort.closePort true
            (ManagerState.mk (.udp udpLearned) true true 1000 1000 5000 Option.none
              (some 900) false 2 [⟨10, 1⟩])).1
          [(0, BaseBetterPort.Ev.callWrite [1, 2]), (900, BaseBetterPort.Ev.timerFire),
           (1000, BaseBetterPort.Ev.retryTick true), (1500, BaseBetterPort.Ev.adapterOpenEvt),
           (2000, BaseBetterPort.Ev.callWrite [3]), (2500, BaseBetterPort.Ev.callClose false)]).2 →
      b = false ∧ err ≠ Option.none :=
  BaseBetterPort.permanentClose_quiescent
    (ManagerState.mk (.udp udpLearned) true true 1000 1000 5000 Option.none
      (some 900) false 2 [⟨10, 1⟩])
    [(0, BaseBetterPort.Ev.callWrite [1, 2]), (900, BaseBetterPort.Ev.timerFire),
     (1000, BaseBetterPort.Ev.retryTick true), (1500, BaseBetterPort.Ev.adapterOpenEvt),
     (2000, BaseBetterPort.Ev.callWrite [3]), (2500, BaseBetterPort.Ev.callClose false)]
    (by decide)

/-! ### Disconnect-timer behaviour -/

/-- Claim C2, counterexample: the transition into Open does not arm the
disconnect timer, and with no inbound data the timer can never fire, so no
`close` event is emitted within (or after) the 1000 ms timeout of a
successful open. -/
theorem BaseBetterPort.timer_not_armed_on_open :
    (BaseBetterPort.step mgrOpen 0 BaseBetterPort.Ev.adapterOpenEvt).1.disconnectedChecker =
      Option.none ∧
    Emit.closed ∉ (BaseBetterPort.run
      (BaseBetterPort.step mgrOpen 0 BaseBetterPort.Ev.adapterOpenEvt).1
      [(1000, BaseBetterPort.Ev.timerFire), (5000, BaseBetterPort.Ev.timerFire)]).2 := by
  decide

theorem run_append (s : ManagerState) (t1 t2 : List (Nat × BaseBetterPort.Ev)) :
    BaseBetterPort.run s (t1 ++ t2) =
      ((BaseBetterPort.run (BaseBetterPort.run s t1).1 t2).1,
       (BaseBetterPort.run s t1).2 ++ (BaseBetterPort.run (BaseBetterPort.run s t1).1 t2).2) := by
  induction t1 generalizing s with
  | nil => simp [BaseBetterPort.run]
  | cons p tr ih =>
    obtain ⟨t, e⟩ := p
    simp [BaseBetterPort.run, ih]

theorem timerBlock_noop (ts : List Nat) (s : ManagerState) (dl : Nat)
    (hch : s.disconnectedChecker = some dl) (hts : ∀ t ∈ ts, t < dl) :
    BaseBetterPort.run s (timerBlock ts) = (s, []) := by
  induction ts with
  | nil => rfl
  | cons t rest ih =>
    have h1 : ¬ (dl ≤ t) := by
      have := hts t (by simp)
      omega
    have hstep : BaseBetterPort.step s t BaseBetterPort.Ev.timerFire = (s, []) := by
      simp [BaseBetterPort.step, hch, h1]
    simp only [timerBlock, List.map_cons, BaseBetterPort.run, hstep]
    have := ih fun t' ht' => hts t' (by simp [ht'])
    rw [timerBlock] at this
    simp [this]

theorem dataSchedule_no_close (blocks : List (List Nat)) (k : Nat) (s : ManagerState)
    (ha : s.adapter.hasHandle = true) (hc : s.closeOnNoData = true)
    (ht : s.disconnectTimeoutMS = 1000) (hb : blocksOk blocks k) :
    Emit.closed ∉ (BaseBetterPort.run s (dataSchedule blocks k)).2 := by
  induction blocks generalizing k s with
  | nil => simp [dataSchedule, BaseBetterPort.run]
  | cons ts rest ih =>
    have hstep : BaseBetterPort.step s (500 * k) BaseBetterPort.Ev.dataEvt =
        ({ s with disconnectedChecker := some (500 * k + s.disconnectTimeoutMS) },
         [Emit.dataOut]) := by
      simp [BaseBetterPort.step, ha, BaseBetterPort.dataCb, hc]
    have hnoop := timerBlock_noop ts
        ({ s with disconnectedChecker := some (500 * k + s.disconnectTimeoutMS) })
        (500 * k + 1000) (by simp [ht]) hb.1
    have hrest := ih (k + 1)
        ({ s with disconnectedChecker := some (500 * k + s.disconnectTimeoutMS) })
        ha hc ht hb.2
    simp only [dataSchedule, BaseBetterPort.run, hstep, run_append, hnoop]
    simp only [List.append_nil, List.nil_append, List.mem_append, List.mem_cons,
      List.not_mem_nil]
    intro hmem
    rcases hmem with h | h
    · rcases h with h | h
      · exact Emit.noConfusion h
      · exact h
    · exact hrest h

/-- Claim C2, amended: the disconnect timer is armed (and re-armed) only
by inbound data events, each arming it to fire `disconnectTimeoutMS` after
the data arrived; consequently, with `disconnectTimeoutMS = 1000` and data
arriving every 500 ms, no timer-driven `close` event fires, no matter when
the pending timeout is polled. -/
theorem BaseBetterPort.disconnect_timer_amended :
    (∀ (s : ManagerState) (t : Nat), s.adapter.hasHandle = true →
      s.closeOnNoData = true →
      (BaseBetterPort.step s t BaseBetterPort.Ev.dataEvt).1.disconnectedChecker =
        some (t + s.disconnectTimeoutMS)) ∧
    (∀ (blocks : List (List Nat)) (s : ManagerState), s.adapter.hasHandle = true →
      s.closeOnNoData = true → s.disconnectTimeoutMS = 1000 → blocksOk blocks 0 →
      Emit.closed ∉ (BaseBetterPort.run s (dataSchedule blocks 0)).2) := by
  constructor
  · intro s t ha hc
    simp [BaseBetterPort.step, ha, BaseBetterPort.dataCb, hc]
  · intro blocks s ha hc ht hb
    exact dataSchedule_no_close blocks 0 s ha hc ht hb

/-- Witness for the amended C2: the open instance `mgrOpen`, data every
500 ms for 5 s, with timer polls inside the blocks. -/
theorem BaseBetterPort.disconnect_timer_amended_witness :
    (BaseBetterPort.step mgrOpen 0 BaseBetterPort.Ev.dataEvt).1.disconnectedChecker =
      some (0 + mgrOpen.disconnectTimeoutMS) ∧
    Emit.closed ∉ (BaseBetterPort.run mgrOpen
      (dataSchedule [[999], [600], [1999], [2400], [2900], [3400], [3900], [4400],
        [4900], [5400], [5900]] 0)).2 :=
  ⟨BaseBetterPort.disconnect_timer_amended.1 mgrOpen 0 (by decide) (by decide),
   BaseBetterPort.disconnect_timer_amended.2
     [[999], [600], [1999], [2400], [2900], [3400], [3900], [4400], [4900], [5400], [5900]]
     mgrOpen (by decide) (by decide) (by decide) (by decide)⟩

end BetterPort
